import Mathlib

/-!
Shallow embedding of the PyAutoGUI MCP server (src/server.py) for checking
the natural-language specification against the code.

Modelling conventions:
* Each tool handler becomes a Lean function over an `Env` record that packages
  the external collaborators (the platform automation primitives, the imaging
  library, and the startup availability flag for Pillow).  The collaborators
  are out of scope per the spec, so they are oracles: fields of `Env`.
* The pydantic/FastMCP schema layer (Field constraints `ge`/`le` and the
  `Literal` enum for the mouse button) is modelled as the leading validation
  step of each tool; a failing constraint yields an `ErrorSignal` of kind
  `InvalidArgument` before the handler body runs.
* Exceptions raised by the handler body and blessed by the spec's taxonomy
  (sections 4.3-4.6) become `ToolResult.err` with the corresponding kind;
  an exception that escapes the handler unmapped becomes
  `ToolResult.unhandled` carrying the Python exception class.
* Every tool also returns the list of collaborator invocations it performed
  (`List Effect`), so "no OS action occurred" is the trace being empty.
* Python `float` parameters carry no float arithmetic in the handlers, so
  they are embedded as rationals.

A semantic point of `find_image_on_screen`, verified against CPython 3.11:
the module attribute `base64.Error` does not exist.  Consequently the clause
`except base64.Error:` at src/server.py:182 raises `AttributeError` while the
interpreter matches handlers, and this happens for every exception coming out
of the `try` block (base64 decode errors, PIL decode errors, pyautogui
faults alike); the later `except Exception` clause of the same `try` is never
consulted.  Hence every exceptional path inside that `try` escapes the tool as
an unhandled `AttributeError`, and the two `raise` statements at
src/server.py:183 and :186 are unreachable.  The embedding reflects this with
`ToolResult.unhandled`.

The base64 decoder is a faithful translation of CPython's
`binascii.a2b_base64` in non-strict mode (the mode `base64.b64decode` uses
with its default `validate=False`), including the silent discarding of
characters outside the base64 alphabet, the early stop at a completed padding
group, and the two error cases ("Invalid base64-encoded string: number of
data characters cannot be 1 more than a multiple of 4" and
"Incorrect padding").  Non-ASCII input raises before `a2b_base64` runs
(`string argument should contain only ASCII characters`).
-/

namespace PyMcp

/-- Screen-space pixel coordinates, origin top-left (spec section 3). -/
structure Point where
  x : Int
  y : Int
  deriving DecidableEq

/-- The caller-facing error taxonomy of spec sections 4.6 and 7. -/
inductive ErrKind
  | InvalidArgument
  | ActionFailed
  | CaptureFailed
  | MatchFailed
  | UnknownTool
  | DependencyUnavailable
  deriving DecidableEq

/-- An error signal as returned to the caller: a kind plus a message. -/
structure ErrorSignal where
  kind : ErrKind
  message : String
  deriving DecidableEq

/-- Outcome of one tool call: a successful value, a raised exception that the
spec taxonomy maps to an `ErrorSignal`, or an exception escaping the handler
with no taxonomy kind (carrying the Python exception class and message). -/
inductive ToolResult (α : Type)
  | ok (val : α)
  | err (e : ErrorSignal)
  | unhandled (excClass excMessage : String)
  deriving DecidableEq

/-- The mouse button enumeration of the `click` tool
(`Literal["left", "right", "middle"]` in src/server.py:77). -/
inductive MouseButton
  | left
  | right
  | middle
  deriving DecidableEq

/-- An in-memory raster image, the value produced by the imaging collaborator
(`PIL.Image.open` / `pyautogui.screenshot`). -/
structure Img where
  width : Int
  height : Int
  pixels : List Nat
  deriving DecidableEq

/-- The transportable image of the screenshot tool
(`fastmcp.Image(data=..., format="png")`, src/server.py:210). -/
structure EncodedImage where
  data : List Nat
  format : String
  deriving DecidableEq

/-- Collaborator invocations a tool can perform, recorded as a trace. -/
inductive Effect
  | moveTo (x y : Int)
  | clickAt (x y : Int) (button : MouseButton) (clicks : Int)
  | typewrite (text : String) (interval : ℚ)
  | pressKey (key : String)
  | keyDown (key : String)
  | keyUp (key : String)
  | base64Decode
  | imageDecode
  | screenSearch
  | screenCapture
  | querySize
  deriving DecidableEq

/-- The environment of one process: the Pillow availability flag computed at
startup (src/server.py:8-11) and the behaviours of the external collaborators.
A `some msg` in a failure oracle means the primitive raises with that
message; `none` means it returns normally. -/
structure Env where
  pilAvailable : Bool
  moveFail : Int → Int → Option String
  clickFail : Int → Int → MouseButton → Int → Option String
  typeFail : String → ℚ → Option String
  keyFail : String → Option String
  openImage : List Nat → Option Img
  locate : Img → ℚ → Except String (Option Point)
  capture : Except String Img
  encodePNG : Img → List Nat
  sizeResult : Except String (Int × Int)

/-! Base64 decoding, translated from CPython `base64.b64decode` with
`validate=False`, i.e. `binascii.a2b_base64` in non-strict mode. -/

/-- Errors `base64.b64decode` can raise: the plain `ValueError` for non-ASCII
input, and the two `binascii.Error` cases. -/
inductive B64Err
  | nonAscii
  | invalidLength
  | incorrectPadding
  deriving DecidableEq

/-- Value of a base64 alphabet character (`table_a2b_base64` in binascii.c);
`none` for characters outside the alphabet. -/
def b64val (c : Char) : Option Nat :=
  if 'A' ≤ c && c ≤ 'Z' then some (c.toNat - 65)
  else if 'a' ≤ c && c ≤ 'z' then some (c.toNat - 97 + 26)
  else if '0' ≤ c && c ≤ '9' then some (c.toNat - 48 + 52)
  else if c = '+' then some 62
  else if c = '/' then some 63
  else none

/-- Main loop of `binascii.a2b_base64` (non-strict): `quadPos` is the number
of data characters in the current group, `leftchar` the pending bits, `pads`
the padding characters seen since the last data character, `acc` the output
bytes in reverse.  Characters outside the alphabet are skipped; a padding
sequence completing a group ends decoding successfully; a final group of one
data character is an invalid length, of two or three an incorrect padding. -/
def a2bBase64 : List Char → Nat → Nat → Nat → List Nat → Except B64Err (List Nat)
  | [], quadPos, _, _, acc =>
      if quadPos = 0 then Except.ok acc.reverse
      else if quadPos = 1 then Except.error B64Err.invalidLength
      else Except.error B64Err.incorrectPadding
  | c :: rest, quadPos, leftchar, pads, acc =>
      if c = '=' then
        if 2 ≤ quadPos then
          if 4 ≤ quadPos + (pads + 1) then Except.ok acc.reverse
          else a2bBase64 rest quadPos leftchar (pads + 1) acc
        else a2bBase64 rest quadPos leftchar pads acc
      else
        match b64val c with
        | none => a2bBase64 rest quadPos leftchar pads acc
        | some v =>
          match quadPos with
          | 0 => a2bBase64 rest 1 v 0 acc
          | 1 => a2bBase64 rest 2 (v % 16) 0 ((leftchar * 4 + v / 16) :: acc)
          | 2 => a2bBase64 rest 3 (v % 4) 0 ((leftchar * 16 + v / 4) :: acc)
          | _ => a2bBase64 rest 0 0 0 ((leftchar * 64 + v) :: acc)

/-- `base64.b64decode` on a Python `str` argument: the string is first
encoded as ASCII (non-ASCII raises `ValueError`), then fed to
`binascii.a2b_base64` in non-strict mode. -/
def b64decode (s : String) : Except B64Err (List Nat) :=
  if s.data.all (fun c => c.toNat ≤ 127) then a2bBase64 s.data 0 0 0 []
  else Except.error B64Err.nonAscii

/-- A string is well-formed base64 in the RFC 4648 sense: its length is a
multiple of four and it consists of alphabet characters followed by at most
two `=` padding characters.  This is the notion the specification's phrase
"malformed base64" refers to; it is strictly stronger than "accepted by the
decode primitive", which discards foreign characters. -/
def wellFormedBase64 (s : String) : Bool :=
  s.data.length % 4 == 0 &&
    (match s.data.reverse with
      | '=' :: '=' :: rest => rest.reverse
      | '=' :: rest => rest.reverse
      | l => l.reverse.reverse).all (fun c => (b64val c).isSome)

/-! The tool handlers, translated from src/server.py. -/

/-- Message of the dead handler at src/server.py:163 and :198. -/
def pilMissingMsg : String :=
  "Pillow (PIL) library is required for this tool but not installed."

/-- Message of the `AttributeError` escaping `find_image_on_screen`. -/
def attrErrMsg : String := "module base64 has no attribute Error"

/-- Schema-layer message for the `clicks` constraint (`Field(ge=1)`). -/
def clicksConstraintMsg : String :=
  "clicks: Input should be greater than or equal to 1"

/-- Schema-layer message for the `interval` constraint (`Field(ge=0.0)`). -/
def intervalConstraintMsg : String :=
  "interval: Input should be greater than or equal to 0"

/-- Schema-layer message for the `confidence` constraint
(`Field(ge=0.0, le=1.0)`). -/
def confidenceConstraintMsg : String :=
  "confidence: Input should be between 0 and 1"

/-- Message of src/server.py:65. -/
def moveFailMsg (x y : Int) (m : String) : String :=
  "Failed to move mouse to (" ++ toString x ++ ", " ++ toString y ++ "): " ++ m

/-- Message of src/server.py:87. -/
def clickFailMsg (x y : Int) (m : String) : String :=
  "Failed to click at (" ++ toString x ++ ", " ++ toString y ++ "): " ++ m

/-- Message of src/server.py:104. -/
def typeFailMsg (m : String) : String := "Failed to type text: " ++ m

/-- Message of src/server.py:122. -/
def pressFailMsg (key m : String) : String :=
  "Failed to press key " ++ key ++ ": " ++ m ++ ". Ensure it is a valid key name."

/-- Message of src/server.py:139. -/
def hotkeyFailMsg (m : String) : String :=
  "Failed to press hotkey combination: " ++ m ++ ". Ensure all key names are valid."

/-- Message of src/server.py:213. -/
def captureFailMsg (m : String) : String := "Failed to take screenshot: " ++ m

/-- Message of src/server.py:228. -/
def sizeFailMsg (m : String) : String := "Failed to get screen size: " ++ m

/-- src/server.py:56-65.  `move_to` has no schema constraints; the platform
move primitive is invoked and a platform failure is re-signaled (spec 4.3:
kind `ActionFailed`, the `RuntimeError` of line 65). -/
def move_to (env : Env) (x y : Int) : ToolResult Unit × List Effect :=
  match env.moveFail x y with
  | none => (ToolResult.ok (), [Effect.moveTo x y])
  | some m =>
      (ToolResult.err ⟨ErrKind.ActionFailed, moveFailMsg x y m⟩, [Effect.moveTo x y])

/-- src/server.py:74-87.  The schema layer enforces `clicks ≥ 1`
(`Field(ge=1)`, line 78) before the handler body runs; then the platform
click primitive is invoked, a failure being re-signaled as `ActionFailed`
(the `RuntimeError` of line 87). -/
def click (env : Env) (x y : Int) (button : MouseButton) (clicks : Int) :
    ToolResult Unit × List Effect :=
  if clicks < 1 then
    (ToolResult.err ⟨ErrKind.InvalidArgument, clicksConstraintMsg⟩, [])
  else
    match env.clickFail x y button clicks with
    | none => (ToolResult.ok (), [Effect.clickAt x y button clicks])
    | some m =>
        (ToolResult.err ⟨ErrKind.ActionFailed, clickFailMsg x y m⟩,
          [Effect.clickAt x y button clicks])

/-- src/server.py:96-104.  The schema layer enforces `interval ≥ 0`
(`Field(ge=0.0)`, line 98); then `pyautogui.typewrite` is invoked. -/
def type_text (env : Env) (text : String) (interval : ℚ) :
    ToolResult Unit × List Effect :=
  if interval < 0 then
    (ToolResult.err ⟨ErrKind.InvalidArgument, intervalConstraintMsg⟩, [])
  else
    match env.typeFail text interval with
    | none => (ToolResult.ok (), [Effect.typewrite text interval])
    | some m =>
        (ToolResult.err ⟨ErrKind.ActionFailed, typeFailMsg m⟩,
          [Effect.typewrite text interval])

/-- src/server.py:113-122.  No key-name validation happens before the call:
`pyautogui.press(key)` is always invoked, and a platform failure is
re-signaled (spec 4.3: an invalid key name is a platform-level failure of
kind `ActionFailed`; the code raises `ValueError` at line 122). -/
def press_key (env : Env) (key : String) : ToolResult Unit × List Effect :=
  match env.keyFail key with
  | none => (ToolResult.ok (), [Effect.pressKey key])
  | some m =>
      (ToolResult.err ⟨ErrKind.ActionFailed, pressFailMsg key m⟩,
        [Effect.pressKey key])

/-- The key-down phase of the platform hotkey primitive
(`pyautogui.hotkey(*keys)`, collaborator contract per spec 4.3 and 9: each
key is pressed down in order, then released in reverse order; a platform
failure on a key aborts the sequence). -/
def hotkeyDowns (fail : String → Option String) :
    List String → List Effect → Option String × List Effect
  | [], acc => (none, acc)
  | k :: rest, acc =>
      match fail k with
      | some m => (some m, acc)
      | none => hotkeyDowns fail rest (acc ++ [Effect.keyDown k])

/-- src/server.py:131-139.  The key list has no schema constraint; it is
unpacked into `pyautogui.hotkey(*keys)`, a failure being re-signaled at
line 139 (spec 4.3: kind `ActionFailed`). -/
def press_hotkey (env : Env) (keys : List String) : ToolResult Unit × List Effect :=
  match hotkeyDowns env.keyFail keys [] with
  | (some m, evs) => (ToolResult.err ⟨ErrKind.ActionFailed, hotkeyFailMsg m⟩, evs)
  | (none, evs) => (ToolResult.ok (), evs ++ keys.reverse.map Effect.keyUp)

/-- src/server.py:148-186.  The schema layer enforces
`0 ≤ confidence ≤ 1` (line 150); the body first checks the Pillow startup
flag (line 162, the only reachable `ErrorSignal` of the body, spec kind
`DependencyUnavailable`), then decodes the base64 argument, opens the image
and searches the screen.  Because `base64.Error` does not exist (see the
module comment), every exception of the `try` block escapes the handler as an
unhandled `AttributeError`: the `InvalidArgument` and `MatchFailed` signals
the spec prescribes at lines 183 and 186 are unreachable. -/
def find_image_on_screen (env : Env) (image_data_base64 : String) (confidence : ℚ) :
    ToolResult (Option Point) × List Effect :=
  if confidence < 0 ∨ 1 < confidence then
    (ToolResult.err ⟨ErrKind.InvalidArgument, confidenceConstraintMsg⟩, [])
  else if env.pilAvailable = false then
    (ToolResult.err ⟨ErrKind.DependencyUnavailable, pilMissingMsg⟩, [])
  else
    match b64decode image_data_base64 with
    | Except.error _ =>
        (ToolResult.unhandled "AttributeError" attrErrMsg, [Effect.base64Decode])
    | Except.ok bytes =>
        match env.openImage bytes with
        | none =>
            (ToolResult.unhandled "AttributeError" attrErrMsg,
              [Effect.base64Decode, Effect.imageDecode])
        | some img =>
            match env.locate img confidence with
            | Except.error _ =>
                (ToolResult.unhandled "AttributeError" attrErrMsg,
                  [Effect.base64Decode, Effect.imageDecode, Effect.screenSearch])
            | Except.ok none =>
                (ToolResult.ok none,
                  [Effect.base64Decode, Effect.imageDecode, Effect.screenSearch])
            | Except.ok (some p) =>
                (ToolResult.ok (some p),
                  [Effect.base64Decode, Effect.imageDecode, Effect.screenSearch])

/-- src/server.py:195-213.  The body first checks the Pillow startup flag
(line 197, spec kind `DependencyUnavailable`), then captures the screen and
re-encodes the captured raster as PNG; any failure of the `try` block is
re-signaled by line 213 (spec 4.4: kind `CaptureFailed`). -/
def take_screenshot (env : Env) : ToolResult EncodedImage × List Effect :=
  if env.pilAvailable = false then
    (ToolResult.err ⟨ErrKind.DependencyUnavailable, pilMissingMsg⟩, [])
  else
    match env.capture with
    | Except.error m =>
        (ToolResult.err ⟨ErrKind.CaptureFailed, captureFailMsg m⟩,
          [Effect.screenCapture])
    | Except.ok img =>
        (ToolResult.ok ⟨env.encodePNG img, "png"⟩, [Effect.screenCapture])

/-- src/server.py:222-228.  `pyautogui.size()` is queried; a failure is
re-signaled by line 228 (spec 4.4: kind `CaptureFailed`). -/
def get_screen_size (env : Env) : ToolResult (Int × Int) × List Effect :=
  match env.sizeResult with
  | Except.ok wh => (ToolResult.ok wh, [Effect.querySize])
  | Except.error m =>
      (ToolResult.err ⟨ErrKind.CaptureFailed, sizeFailMsg m⟩, [Effect.querySize])

/-! Concrete environments used to instantiate the theorems below. -/

/-- A small concrete raster image. -/
def imgA : Img := ⟨2, 2, [0, 1, 2, 3]⟩

/-- A baseline process environment: Pillow initialized, all platform
primitives succeeding, except that the platform rejects the key name
"notakey", and the screen search reports no match. -/
def env0 : Env :=
  { pilAvailable := true
    moveFail := fun _ _ => none
    clickFail := fun _ _ _ _ => none
    typeFail := fun _ _ => none
    keyFail := fun k => if k = "notakey" then some "unrecognized" else none
    openImage := fun _ => some imgA
    locate := fun _ _ => Except.ok none
    capture := Except.ok imgA
    encodePNG := fun i => i.pixels
    sizeResult := Except.ok (1920, 1080) }

/-- Like `env0` but the imaging collaborator cannot open any byte string (as
PIL cannot open the empty byte string, for instance). -/
def envNoOpen : Env := { env0 with openImage := fun _ => none }

/-- Like `env0` but Pillow failed to initialize at startup. -/
def envOff : Env := { env0 with pilAvailable := false }

/-- A second Pillow-less environment with different collaborator behaviour,
to show results do not depend on the collaborators in that state. -/
def envOff2 : Env :=
  { envOff with
    openImage := fun _ => none
    capture := Except.error "no display" }

/-- Like `env0` but the screen search reports a match centered at (3, 4). -/
def envFound : Env := { env0 with locate := fun _ _ => Except.ok (some ⟨3, 4⟩) }

/-- Like `env0` but the screen capture primitive fails. -/
def envBoom : Env := { env0 with capture := Except.error "boom" }

/-! Validation of the base64 embedding against the observed behaviour of
CPython 3.11 `base64.b64decode` on the same inputs. -/

example : b64decode "" = Except.ok [] := rfl
example : b64decode "!!!" = Except.ok [] := rfl
example : b64decode "a" = Except.error B64Err.invalidLength := rfl
example : b64decode "ab" = Except.error B64Err.incorrectPadding := rfl
example : b64decode "ab==" = Except.ok [105] := rfl
example : b64decode "a=b=" = Except.error B64Err.incorrectPadding := rfl
example : b64decode "TWFu" = Except.ok [77, 97, 110] := rfl
example : b64decode "TWF=" = Except.ok [77, 97] := rfl
example : b64decode "QUJD!extra" = Except.error B64Err.invalidLength := rfl
example : b64decode "QQ==trailinggarbage" = Except.ok [65] := rfl
example : b64decode "=" = Except.ok [] := rfl
example : b64decode "ab=a=" = Except.ok [105, 182] := rfl
example : b64decode "ab=!=" = Except.ok [105] := rfl
example : wellFormedBase64 "TWFu" = true := by decide
example : wellFormedBase64 "TWF=" = true := by decide
example : wellFormedBase64 "====" = false := by decide

/-- C1: the claim states that every input string that is not well-formed
base64 makes `find_image_on_screen` return an `ErrorSignal` of kind
`InvalidArgument`, raised at the base64-decode step, and never `MatchFailed`.
The code disagrees twice: for "a" (malformed padding) the decode error
escapes the handler as an unhandled `AttributeError` — no `ErrorSignal` of
any kind — because `except base64.Error` names a nonexistent attribute; and
"!!!" is not rejected at the decode step at all (the primitive discards
non-alphabet characters and yields the empty byte string), failing only at
the later image-decode step. -/
theorem C1_malformed_base64_not_invalid_argument :
    wellFormedBase64 "a" = false ∧
    find_image_on_screen envNoOpen "a" 1 =
      (ToolResult.unhandled "AttributeError" attrErrMsg, [Effect.base64Decode]) ∧
    wellFormedBase64 "!!!" = false ∧
    find_image_on_screen envNoOpen "!!!" 1 =
      (ToolResult.unhandled "AttributeError" attrErrMsg,
        [Effect.base64Decode, Effect.imageDecode]) := by
  refine ⟨by decide, ?_, by decide, ?_⟩ <;> rfl

/-- C2: for a valid base64-encoded decodable reference image, a screen search
reporting no sufficiently similar region makes `find_image_on_screen` return
the absent result as a successful outcome, not an `ErrorSignal` of any
kind. -/
theorem C2_not_found_is_success (env : Env) (s : String) (c : ℚ)
    (bytes : List Nat) (img : Img)
    (hc0 : 0 ≤ c) (hc1 : c ≤ 1) (hpil : env.pilAvailable = true)
    (hdec : b64decode s = Except.ok bytes)
    (hopen : env.openImage bytes = some img)
    (hloc : env.locate img c = Except.ok none) :
    find_image_on_screen env s c =
      (ToolResult.ok none,
        [Effect.base64Decode, Effect.imageDecode, Effect.screenSearch]) ∧
    ∀ e : ErrorSignal, (find_image_on_screen env s c).1 ≠ ToolResult.err e := by
  have hnot : ¬(c < 0 ∨ 1 < c) := by
    rintro (h | h)
    · exact absurd hc0 (not_le.mpr h)
    · exact absurd hc1 (not_le.mpr h)
  have hmain : find_image_on_screen env s c =
      (ToolResult.ok none,
        [Effect.base64Decode, Effect.imageDecode, Effect.screenSearch]) := by
    simp [find_image_on_screen, if_neg hnot, hpil, hdec, hopen, hloc]
  refine ⟨hmain, ?_⟩
  rw [hmain]
  intro e h
  exact ToolResult.noConfusion h

/-- C2 witness: a concrete run in which the search reports no match. -/
theorem C2_witness :
    find_image_on_screen env0 "TWFu" 1 =
      (ToolResult.ok none,
        [Effect.base64Decode, Effect.imageDecode, Effect.screenSearch]) ∧
    ∀ e : ErrorSignal, (find_image_on_screen env0 "TWFu" 1).1 ≠ ToolResult.err e :=
  C2_not_found_is_success env0 "TWFu" 1 [77, 97, 110] imgA
    (by norm_num) (by norm_num) rfl rfl rfl rfl

/-- C3: if Pillow failed to initialize at startup, every invocation of
`find_image_on_screen` (with schema-valid arguments) and of `take_screenshot`
returns an `ErrorSignal` of kind `DependencyUnavailable` — a kind distinct
from the five other kinds — with an empty collaborator trace, i.e. without
attempting the operation. -/
theorem C3_dependency_unavailable (env : Env) (s : String) (c : ℚ)
    (hc0 : 0 ≤ c) (hc1 : c ≤ 1) (hpil : env.pilAvailable = false) :
    find_image_on_screen env s c =
      (ToolResult.err ⟨ErrKind.DependencyUnavailable, pilMissingMsg⟩, []) ∧
    take_screenshot env =
      (ToolResult.err ⟨ErrKind.DependencyUnavailable, pilMissingMsg⟩, []) ∧
    ErrKind.DependencyUnavailable ≠ ErrKind.InvalidArgument ∧
    ErrKind.DependencyUnavailable ≠ ErrKind.ActionFailed ∧
    ErrKind.DependencyUnavailable ≠ ErrKind.CaptureFailed ∧
    ErrKind.DependencyUnavailable ≠ ErrKind.MatchFailed ∧
    ErrKind.DependencyUnavailable ≠ ErrKind.UnknownTool := by
  have hnot : ¬(c < 0 ∨ 1 < c) := by
    rintro (h | h)
    · exact absurd hc0 (not_le.mpr h)
    · exact absurd hc1 (not_le.mpr h)
  refine ⟨?_, ?_, by decide, by decide, by decide, by decide, by decide⟩
  · simp [find_image_on_screen, if_neg hnot, hpil]
  · simp [take_screenshot, hpil]

/-- C3 witness: a concrete Pillow-less environment. -/
theorem C3_witness :
    find_image_on_screen envOff "TWFu" 1 =
      (ToolResult.err ⟨ErrKind.DependencyUnavailable, pilMissingMsg⟩, []) ∧
    take_screenshot envOff =
      (ToolResult.err ⟨ErrKind.DependencyUnavailable, pilMissingMsg⟩, []) ∧
    ErrKind.DependencyUnavailable ≠ ErrKind.InvalidArgument ∧
    ErrKind.DependencyUnavailable ≠ ErrKind.ActionFailed ∧
    ErrKind.DependencyUnavailable ≠ ErrKind.CaptureFailed ∧
    ErrKind.DependencyUnavailable ≠ ErrKind.MatchFailed ∧
    ErrKind.DependencyUnavailable ≠ ErrKind.UnknownTool :=
  C3_dependency_unavailable envOff "TWFu" 1 (by norm_num) (by norm_num) rfl

/-- C4: a `click` call with `clicks = n ≤ 0` is rejected by the schema layer
with kind `InvalidArgument` and an empty collaborator trace (no OS-level
click occurs); for every `n ≥ 1` the constraint passes, the click primitive
is invoked, and the result is never of kind `InvalidArgument`. -/
theorem C4_clicks_constraint (env : Env) (x y : Int) (b : MouseButton) (n : Int) :
    (n ≤ 0 → click env x y b n =
      (ToolResult.err ⟨ErrKind.InvalidArgument, clicksConstraintMsg⟩, [])) ∧
    (1 ≤ n →
      (click env x y b n).2 = [Effect.clickAt x y b n] ∧
      ∀ m : String,
        (click env x y b n).1 ≠ ToolResult.err ⟨ErrKind.InvalidArgument, m⟩) := by
  constructor
  · intro hn
    have h1 : n < 1 := by omega
    simp [click, if_pos h1]
  · intro hn
    have h1 : ¬ n < 1 := by omega
    constructor
    · cases h : env.clickFail x y b n <;> simp [click, if_neg h1, h]
    · intro m
      cases h : env.clickFail x y b n <;> simp [click, if_neg h1, h]

/-- C4 witness: a rejected call with zero clicks and an accepted call with
two clicks. -/
theorem C4_witness :
    click env0 5 6 MouseButton.left 0 =
      (ToolResult.err ⟨ErrKind.InvalidArgument, clicksConstraintMsg⟩, []) ∧
    (click env0 5 6 MouseButton.left 2).2 = [Effect.clickAt 5 6 MouseButton.left 2] :=
  ⟨(C4_clicks_constraint env0 5 6 MouseButton.left 0).1 (by norm_num),
   ((C4_clicks_constraint env0 5 6 MouseButton.left 2).2 (by norm_num)).1⟩

/-- C5 counterexample: the claim states that an unrecognized key name is
checked before invoking the input-action adapter and yields kind
`InvalidArgument` with no OS action.  In the code no such check exists: at
the concrete input "notakey" (unrecognized by the platform of `env0`) the
press primitive is invoked — the trace is the nonempty
`[Effect.pressKey "notakey"]` — and the re-signaled failure has kind
`ActionFailed`, which differs from `InvalidArgument`. -/
theorem C5_counterexample_press_key_not_prevalidated :
    press_key env0 "notakey" =
      (ToolResult.err ⟨ErrKind.ActionFailed, pressFailMsg "notakey" "unrecognized"⟩,
        [Effect.pressKey "notakey"]) ∧
    ErrKind.ActionFailed ≠ ErrKind.InvalidArgument ∧
    [Effect.pressKey "notakey"] ≠ ([] : List Effect) := by
  refine ⟨rfl, by decide, by simp⟩

/-- C5 amended: `press_key` and `press_hotkey` perform no key-name
validation before invoking the input-action adapter — `press_key` always
invokes the press primitive, a platform failure being re-signaled with kind
`ActionFailed` (spec 4.3) — and neither tool ever returns an `ErrorSignal`
of kind `InvalidArgument`. -/
theorem C5_amended_no_prevalidation (env : Env) (key : String) (keys : List String) :
    (press_key env key).2 = [Effect.pressKey key] ∧
    (∀ m, env.keyFail key = some m →
      (press_key env key).1 =
        ToolResult.err ⟨ErrKind.ActionFailed, pressFailMsg key m⟩) ∧
    (∀ m : String,
      (press_key env key).1 ≠ ToolResult.err ⟨ErrKind.InvalidArgument, m⟩) ∧
    (∀ m : String,
      (press_hotkey env keys).1 ≠ ToolResult.err ⟨ErrKind.InvalidArgument, m⟩) := by
  refine ⟨?_, ?_, ?_, ?_⟩
  · cases h : env.keyFail key <;> simp [press_key, h]
  · intro m hm
    simp [press_key, hm]
  · intro m
    cases h : env.keyFail key <;> simp [press_key, h]
  · intro m
    rcases h : hotkeyDowns env.keyFail keys [] with ⟨o, evs⟩
    cases o <;> simp [press_hotkey, h]

/-- C5 witness: the amended behaviour at the concrete failing key. -/
theorem C5_witness :
    env0.keyFail "notakey" = some "unrecognized" ∧
    (press_key env0 "notakey").1 =
      ToolResult.err ⟨ErrKind.ActionFailed, pressFailMsg "notakey" "unrecognized"⟩ :=
  ⟨rfl, (C5_amended_no_prevalidation env0 "notakey" ["ctrl", "c"]).2.1 "unrecognized" rfl⟩

/-- C6: when the screen search primitive reports a result, the value
returned by `find_image_on_screen` is exactly that reported center point,
and the result is present if and only if the primitive reported a match. -/
theorem C6_found_returns_center (env : Env) (s : String) (c : ℚ)
    (bytes : List Nat) (img : Img) (r : Option Point)
    (hc0 : 0 ≤ c) (hc1 : c ≤ 1) (hpil : env.pilAvailable = true)
    (hdec : b64decode s = Except.ok bytes)
    (hopen : env.openImage bytes = some img)
    (hloc : env.locate img c = Except.ok r) :
    (find_image_on_screen env s c).1 = ToolResult.ok r ∧
    ((∃ p, (find_image_on_screen env s c).1 = ToolResult.ok (some p)) ↔
      ∃ p, r = some p) := by
  have hnot : ¬(c < 0 ∨ 1 < c) := by
    rintro (h | h)
    · exact absurd hc0 (not_le.mpr h)
    · exact absurd hc1 (not_le.mpr h)
  have hmain : (find_image_on_screen env s c).1 = ToolResult.ok r := by
    cases r with
    | none => simp [find_image_on_screen, if_neg hnot, hpil, hdec, hopen, hloc]
    | some p => simp [find_image_on_screen, if_neg hnot, hpil, hdec, hopen, hloc]
  refine ⟨hmain, ?_⟩
  rw [hmain]
  simp

/-- C6 witness: a concrete run in which the search reports center (3, 4). -/
theorem C6_witness :
    (find_image_on_screen envFound "TWFu" 1).1 = ToolResult.ok (some ⟨3, 4⟩) ∧
    ((∃ p, (find_image_on_screen envFound "TWFu" 1).1 = ToolResult.ok (some p)) ↔
      ∃ p, (some (⟨3, 4⟩ : Point)) = some p) :=
  C6_found_returns_center envFound "TWFu" 1 [77, 97, 110] imgA (some ⟨3, 4⟩)
    (by norm_num) (by norm_num) rfl rfl rfl rfl

/-- C7: a successful `take_screenshot` call returns an `EncodedImage` whose
bytes are exactly the PNG encoding of the captured screen raster and whose
format tag is "png"; a failure of the capture primitive yields an
`ErrorSignal` of kind `CaptureFailed`. -/
theorem C7_screenshot_png (env : Env) (hpil : env.pilAvailable = true) :
    (∀ img : Img, env.capture = Except.ok img →
      take_screenshot env =
        (ToolResult.ok ⟨env.encodePNG img, "png"⟩, [Effect.screenCapture])) ∧
    (∀ m : String, env.capture = Except.error m →
      take_screenshot env =
        (ToolResult.err ⟨ErrKind.CaptureFailed, captureFailMsg m⟩,
          [Effect.screenCapture])) := by
  constructor
  · intro img h
    simp [take_screenshot, hpil, h]
  · intro m h
    simp [take_screenshot, hpil, h]

/-- C7 witness: a successful capture and a failing capture. -/
theorem C7_witness :
    take_screenshot env0 =
      (ToolResult.ok ⟨env0.encodePNG imgA, "png"⟩, [Effect.screenCapture]) ∧
    take_screenshot envBoom =
      (ToolResult.err ⟨ErrKind.CaptureFailed, captureFailMsg "boom"⟩,
        [Effect.screenCapture]) :=
  ⟨(C7_screenshot_png env0 rfl).1 imgA rfl,
   (C7_screenshot_png envBoom rfl).2 "boom" rfl⟩

/-- C8: a `press_hotkey` call with the empty key list succeeds (no
`ErrorSignal`) and presses no keys at all: its collaborator trace is
empty in every environment. -/
theorem C8_empty_hotkey_succeeds (env : Env) :
    press_hotkey env [] = (ToolResult.ok (), []) := rfl

/-- C9: with Pillow unavailable, `find_image_on_screen` (on schema-valid
arguments) performs no collaborator work — its trace is empty and its result
does not depend on the input string, the confidence, or any collaborator
behaviour — and `take_screenshot` likewise returns before invoking the
capture primitive. -/
theorem C9_dependency_error_atomicity (env env' : Env) (s s' : String) (c c' : ℚ)
    (hc0 : 0 ≤ c) (hc1 : c ≤ 1) (hc0' : 0 ≤ c') (hc1' : c' ≤ 1)
    (hpil : env.pilAvailable = false) (hpil' : env'.pilAvailable = false) :
    (find_image_on_screen env s c).2 = [] ∧
    find_image_on_screen env s c = find_image_on_screen env' s' c' ∧
    (take_screenshot env).2 = [] ∧
    take_screenshot env = take_screenshot env' := by
  have hnot : ¬(c < 0 ∨ 1 < c) := by
    rintro (h | h)
    · exact absurd hc0 (not_le.mpr h)
    · exact absurd hc1 (not_le.mpr h)
  have hnot' : ¬(c' < 0 ∨ 1 < c') := by
    rintro (h | h)
    · exact absurd hc0' (not_le.mpr h)
    · exact absurd hc1' (not_le.mpr h)
  have h1 : find_image_on_screen env s c =
      (ToolResult.err ⟨ErrKind.DependencyUnavailable, pilMissingMsg⟩, []) := by
    simp [find_image_on_screen, if_neg hnot, hpil]
  have h2 : find_image_on_screen env' s' c' =
      (ToolResult.err ⟨ErrKind.DependencyUnavailable, pilMissingMsg⟩, []) := by
    simp [find_image_on_screen, if_neg hnot', hpil']
  have h3 : take_screenshot env =
      (ToolResult.err ⟨ErrKind.DependencyUnavailable, pilMissingMsg⟩, []) := by
    simp [take_screenshot, hpil]
  have h4 : take_screenshot env' =
      (ToolResult.err ⟨ErrKind.DependencyUnavailable, pilMissingMsg⟩, []) := by
    simp [take_screenshot, hpil']
  refine ⟨by rw [h1], by rw [h1, h2], by rw [h3], by rw [h3, h4]⟩

/-- C9 witness: two Pillow-less environments with different collaborators,
different input strings and different confidences give identical results
and empty traces. -/
theorem C9_witness :
    (find_image_on_screen envOff "TWFu" 1).2 = [] ∧
    find_image_on_screen envOff "TWFu" 1 = find_image_on_screen envOff2 "%%%" 0 ∧
    (take_screenshot envOff).2 = [] ∧
    take_screenshot envOff = take_screenshot envOff2 :=
  C9_dependency_error_atomicity envOff envOff2 "TWFu" "%%%" 1 0
    (by norm_num) (by norm_num) (by norm_num) (by norm_num) rfl rfl

/-- C10: the six tools that do not require the imaging library — `move_to`,
`click`, `type_text`, `press_key`, `press_hotkey`, `get_screen_size` — are
insensitive to the Pillow startup flag: flipping `pilAvailable` to any value
leaves every result and every collaborator trace unchanged. -/
theorem C10_pil_flag_noninterference (env : Env) (b : Bool) (x y : Int)
    (btn : MouseButton) (n : Int) (t : String) (iv : ℚ) (k : String)
    (ks : List String) :
    move_to { env with pilAvailable := b } x y = move_to env x y ∧
    click { env with pilAvailable := b } x y btn n = click env x y btn n ∧
    type_text { env with pilAvailable := b } t iv = type_text env t iv ∧
    press_key { env with pilAvailable := b } k = press_key env k ∧
    press_hotkey { env with pilAvailable := b } ks = press_hotkey env ks ∧
    get_screen_size { env with pilAvailable := b } = get_screen_size env :=
  ⟨rfl, rfl, rfl, rfl, rfl, rfl⟩

end PyMcp
